import Mathlib

/-!
# Verification of the Push notification dispatch core

A shallow embedding of `src/classes/Push.js` (the dispatch core, notification
registry and closure operations) together with the observable protocol of
`MobileChromeAgent` (the Service-Worker agent, `src/unnamed/part_000`).

The four synchronous agents (desktop, legacy WebKit, IE, Firefox-mobile) and
the permission wrapper are not part of the given sources; their observable
behaviour is modelled from the spec as oracle fields of an `Env` record:
a pure boolean support probe, and a creation that either returns a native
record or throws (for the permission gate: a current-state query plus a
request on which exactly one of granted/denied fires).

JavaScript features are embedded as follows: the `_notifications` object
(integer keys, ascending key enumeration, which coincides with insertion
order because ids only grow) becomes an association list ordered by
insertion; thrown exceptions become `Except` results that carry the mutated
state, since a JS throw does not roll back mutations of `this`; promise
resolution becomes the temporally ordered list of `resolve` calls, of which
the first is the effective one (first-call-wins semantics of `Promise`).
-/

namespace Push

/-- A native notification record as the registry stores it: the dispatch core
only ever reads its `tag` field (`close(tag)` lookup); `uid` gives records an
identity so that distinct native records are distinguishable in the model. -/
structure NotificationRecord where
  tag : Option String
  uid : Nat
  deriving DecidableEq, Repr

/-- The private state of a `Push` instance: `_currentId` and the
`_notifications` map (association list in insertion order). -/
structure PushState where
  currentId : Nat
  notifications : List (Nat × NotificationRecord)
  deriving DecidableEq, Repr

/-- The state of a freshly constructed `Push` object: `_currentId = 0`,
`_notifications = {}` (constructor, Push.js lines 14-41). -/
def initState : PushState :=
  { currentId := 0, notifications := [] }

/-- `this._notifications[id]`: JS property access yields the stored record or
`undefined` (here `none`). -/
def lookupNotification (s : PushState) (id : Nat) : Option NotificationRecord :=
  (s.notifications.find? (fun p => p.1 == id)).map (fun p => p.2)

/-- `_addNotification` (Push.js lines 85-90): stores the record under
`_currentId`, increments `_currentId`, and returns the used id. -/
def _addNotification (s : PushState) (n : NotificationRecord) : Nat × PushState :=
  (s.currentId,
   { currentId := s.currentId + 1,
     notifications := s.notifications ++ [(s.currentId, n)] })

/-- `_removeNotification` (Push.js lines 98-108): if `_notifications` has the
key, delete it and report `true`; otherwise report `false`. -/
def _removeNotification (s : PushState) (id : Nat) : Bool × PushState :=
  if s.notifications.any (fun p => p.1 == id) then
    (true, { s with notifications := s.notifications.filter (fun p => p.1 != id) })
  else
    (false, s)

/-- Names of the five notification agents. -/
inductive AgentName
  | desktop
  | chrome
  | firefox
  | ms
  | webkit
  deriving DecidableEq, Repr

/-- Modelled from the spec: the observable behaviour of the collaborators
whose sources are not given (the four synchronous agents - a pure
`isSupported` probe and a creation that returns a native record or signals
failure by throwing - and the permission gate - a `has()` state and a
`request` on which exactly one of granted/denied fires), together with the
oracle inputs of the Service-Worker round trip of `MobileChromeAgent.create`
(whether the worker-ready and display-success signals fire, and the list the
worker's `getNotifications()` reports). -/
structure Env where
  desktopSupported : Bool
  chromeSupported : Bool
  firefoxSupported : Bool
  msSupported : Bool
  webkitSupported : Bool
  desktopCreateResult : Except String NotificationRecord
  webkitCreateResult : Except String NotificationRecord
  firefoxCreateResult : Except String NotificationRecord
  msCreateResult : Except String NotificationRecord
  permissionHas : Bool
  permissionGranted : Bool
  workerReady : Bool
  displaySuccess : Bool
  workerNotifications : List NotificationRecord
  deriving Repr

/-- Modelled from the spec: the fixed "unknown interface" message of
`Messages.errors.unknown_interface` (Messages.js is not among the given
sources; Push.js line 204 throws it when no agent matches). -/
def unknown_interface_message : String := "unknown interface"

/-- Error thrown by `create` for a non-string title (Push.js line 246). -/
def title_error_message : String :=
  "PushError: Title of notification must be a string"

/-- Error thrown by `_closeNotification` when the record is registered but
no close-capable agent is supported (Push.js line 70). -/
def close_error_message : String :=
  "Unable to close notification: unknown interface"

/-- `_closeNotification` (Push.js lines 49-77). If the id is absent the
lookup yields `undefined` and the function returns `false` without touching
anything. Otherwise the entry is removed first; then the desktop, WebKit and
IE agents are probed in that order for a `close` call; if none is supported
an error is thrown - after the removal, which a JS throw does not undo, so
the error carries the mutated state. -/
def _closeNotification (env : Env) (s : PushState) (id : Nat) :
    Except (String × PushState) (Bool × PushState) :=
  match lookupNotification s id with
  | some _ =>
    let r := _removeNotification s id
    if env.desktopSupported then .ok (r.1, r.2)
    else if env.webkitSupported then .ok (r.1, r.2)
    else if env.msSupported then .ok (r.1, r.2)
    else .error (close_error_message, r.2)
  | none => .ok (false, s)

/-- `close(tag)` (Push.js lines 294-307): scan `_notifications` in key
enumeration order (ascending ids = insertion order), and on the first record
whose `tag` strictly equals the argument return `_closeNotification` of its
key; with no match the loop falls through and the function returns
`undefined` (here `none`). -/
def close (env : Env) (s : PushState) (tag : Option String) :
    Except (String × PushState) (Option Bool × PushState) :=
  match s.notifications.find? (fun p => p.2.tag == tag) with
  | some p =>
    match _closeNotification env s p.1 with
    | .ok r => .ok (some r.1, r.2)
    | .error e => .error e
  | none => .ok (none, s)

/-- The loop of `clear` (Push.js lines 316-317):
`success = success && this._closeNotification(key)` over the keys. The JS
`&&` short-circuits: once `success` is `false`, `_closeNotification` is not
called for the remaining keys. A thrown error aborts the loop. -/
def clearLoop (env : Env) :
    List Nat → Bool → PushState → Except (String × PushState) (Bool × PushState)
  | [], success, s => .ok (success, s)
  | k :: ks, success, s =>
    if success then
      match _closeNotification env s k with
      | .ok r => clearLoop env ks r.1 r.2
      | .error e => .error e
    else
      clearLoop env ks false s

/-- `clear()` (Push.js lines 313-320): fold the loop over the registered
keys starting from `success = true`. -/
def clear (env : Env) (s : PushState) :
    Except (String × PushState) (Bool × PushState) :=
  clearLoop env (s.notifications.map (fun p => p.1)) true s

/-- `count()` (Push.js lines 279-287): the number of keys of
`_notifications`. -/
def count (s : PushState) : Nat :=
  s.notifications.length

/-- `supported()` (Push.js lines 326-334): true when at least one agent
reports support. -/
def supported (env : Env) : Bool :=
  env.desktopSupported || env.chromeSupported || env.firefoxSupported ||
    env.msSupported || env.webkitSupported

/-- The options of a `create` call, at the granularity the dispatch core
observes: the `tag`, the autoclose `timeout`, and which of the lifecycle
callbacks are functions (the `Util.isFunction` tests of lines 158, 211-218). -/
structure Options where
  tag : Option String
  timeout : Option Nat
  hasOnShow : Bool
  hasOnError : Bool
  hasOnClick : Bool
  hasOnClose : Bool
  deriving DecidableEq, Repr

/-- `create(title, {})`: no options set. -/
def noOptions : Options :=
  { tag := none, timeout := none, hasOnShow := false, hasOnError := false,
    hasOnClick := false, hasOnClose := false }

/-- A value passed to `resolve`: either the wrapper built by
`_prepareNotification(id, options)` (lines 118-140) - identified here by its
registry id, since the wrapper's `get` and `close` are exactly
`lookupNotification` and `_closeNotification` at that id - or the empty
object `{}` of line 233. -/
inductive Resolution
  | wrapper (id : Nat)
  | empty
  deriving DecidableEq, Repr

/-- `wrapper.get` of `_prepareNotification` (lines 123-125): the current
registry entry, or nothing once it is removed. -/
def wrapperGet (s : PushState) (id : Nat) : Option NotificationRecord :=
  lookupNotification s id

/-- `wrapper.close` of `_prepareNotification` (lines 127-129). -/
def wrapperClose (env : Env) (s : PushState) (id : Nat) :
    Except (String × PushState) (Bool × PushState) :=
  _closeNotification env s id

/-- The event listeners attached to a synchronously created native record
(lines 211-226): `show`, `error` and `click` exactly when the corresponding
caller callback is a function, then `close` and `cancel` unconditionally. -/
def syncListeners (o : Options) : List String :=
  (if o.hasOnShow then ["show"] else []) ++
    (if o.hasOnError then ["error"] else []) ++
      (if o.hasOnClick then ["click"] else []) ++ ["close", "cancel"]

/-- The observable outcome of one run of `_createCallback`, asynchronous
completions included: the exception escaping it (if any), the `resolve`
calls in temporal order, the final registry state, the agents probed by
`isSupported` in order, the agents whose `create` ran, the listeners
attached to the native record, and whether the Service-Worker message
listener of lines 178-183 was attached. -/
structure CallbackResult where
  thrown : Option String
  resolutions : List Resolution
  state : PushState
  probes : List AgentName
  creates : List AgentName
  listeners : List String
  swCloseListener : Bool
  deriving DecidableEq, Repr

/-- The synchronous registration block of `_createCallback`
(lines 206-230): allocate an id for the non-null record, build the wrapper,
attach the listeners, and call `resolve(wrapper)` - after which the
unconditional `resolve({})` of line 233 still runs. -/
def registerSync (options : Options) (s : PushState) (n : NotificationRecord)
    (probes creates : List AgentName) : CallbackResult :=
  let r := _addNotification s n
  { thrown := none,
    resolutions := [.wrapper r.1, .empty],
    state := r.2,
    probes := probes,
    creates := creates,
    listeners := syncListeners options,
    swCloseListener := false }

/-- `MobileChromeAgent.create` (src/unnamed/part_000, lines 39-100), reduced
to its observable protocol: register the worker script, wait for readiness,
assemble the payload, `showNotification`, then `getNotifications`; when both
the worker-ready and the display-success signals fire, the callback receives
the worker's notification list (after the empty `postMessage` identifying
the client). A failure of either step only rejects the agent's internal
promise chain - the `throw` inside `.catch` never reaches the dispatch
core - so the callback simply never fires. -/
def mobileChromeCreate (env : Env) : Option (List NotificationRecord) :=
  if env.workerReady && env.displaySuccess then some env.workerNotifications
  else none

/-- `_createCallback` (Push.js lines 147-234). The desktop agent is probed
first; if it is supported its `create` runs, and a throw falls back to the
Service-Worker (chrome) agent, whose callback - firing after the worker
signals - registers the last entry of the worker's list and resolves a
wrapper over it, while the synchronous sweep has already fallen through to
`resolve({})`. If the desktop agent is unsupported the chain probes WebKit,
then Firefox-mobile (whose returned record is discarded, line 196), then
IE, and with no supported agent throws the unknown-interface error. -/
def _createCallback (env : Env) (options : Options) (s : PushState) :
    CallbackResult :=
  if env.desktopSupported then
    match env.desktopCreateResult with
    | .ok n => registerSync options s n [.desktop] [.desktop]
    | .error _ =>
      if env.chromeSupported then
        match mobileChromeCreate env with
        | some notifications =>
          match notifications.getLast? with
          | some last =>
            let r := _addNotification s last
            { thrown := none,
              resolutions := [.empty, .wrapper r.1],
              state := r.2,
              probes := [.desktop, .chrome],
              creates := [.desktop, .chrome],
              listeners := [],
              swCloseListener := true }
          | none =>
            { thrown := none,
              resolutions := [.empty, .wrapper s.currentId],
              state := { currentId := s.currentId + 1,
                         notifications := s.notifications },
              probes := [.desktop, .chrome],
              creates := [.desktop, .chrome],
              listeners := [],
              swCloseListener := true }
        | none =>
          { thrown := none, resolutions := [.empty], state := s,
            probes := [.desktop, .chrome], creates := [.desktop, .chrome],
            listeners := [], swCloseListener := false }
      else
        { thrown := none, resolutions := [.empty], state := s,
          probes := [.desktop, .chrome], creates := [.desktop],
          listeners := [], swCloseListener := false }
  else if env.webkitSupported then
    match env.webkitCreateResult with
    | .ok n => registerSync options s n [.desktop, .webkit] [.webkit]
    | .error e =>
      { thrown := some e, resolutions := [], state := s,
        probes := [.desktop, .webkit], creates := [.webkit],
        listeners := [], swCloseListener := false }
  else if env.firefoxSupported then
    match env.firefoxCreateResult with
    | .ok _ =>
      { thrown := none, resolutions := [.empty], state := s,
        probes := [.desktop, .webkit, .firefox], creates := [.firefox],
        listeners := [], swCloseListener := false }
    | .error e =>
      { thrown := some e, resolutions := [], state := s,
        probes := [.desktop, .webkit, .firefox], creates := [.firefox],
        listeners := [], swCloseListener := false }
  else if env.msSupported then
    match env.msCreateResult with
    | .ok n => registerSync options s n [.desktop, .webkit, .firefox, .ms] [.ms]
    | .error e =>
      { thrown := some e, resolutions := [], state := s,
        probes := [.desktop, .webkit, .firefox, .ms], creates := [.ms],
        listeners := [], swCloseListener := false }
  else
    { thrown := some unknown_interface_message, resolutions := [], state := s,
      probes := [.desktop, .webkit, .firefox, .ms], creates := [],
      listeners := [], swCloseListener := false }

/-- The handler attached to the Service-Worker message channel in the chrome
path (lines 178-183): a parsed message whose `action` is `"close"` and whose
`id` is an integer removes that registry entry; anything else is ignored. -/
def swMessageHandler (s : PushState) (action : String) (id : Option Nat) :
    PushState :=
  if action == "close" then
    match id with
    | some i => (_removeNotification s i).2
    | none => s
  else s

/-- The effective outcome of the `Promise` around `_createCallback`. -/
inductive PromiseOutcome
  | resolved (r : Resolution)
  | rejected (msg : String)
  deriving DecidableEq, Repr

/-- The string `create` rejects with when the permission request is denied
(line 259). -/
def permission_declined_message : String := "Permission request declined"

/-- The effective outcome of the promise executor around `_createCallback`
(lines 251-269): a thrown error is caught and rejects the promise; otherwise
the first `resolve` call wins (every non-throwing path of `_createCallback`
resolves at least once, through line 233, so the default is unreachable). -/
def effectiveOutcome (cb : CallbackResult) : PromiseOutcome :=
  match cb.thrown with
  | some e => .rejected e
  | none => .resolved (cb.resolutions.headD .empty)

/-- The observable outcome of a `create` call: the synchronously thrown
title error (if any), how many permission requests were issued, the
effective promise outcome, the final state, and the dispatch traces. -/
structure CreateResult where
  thrownSync : Option String
  permissionRequests : Nat
  outcome : Option PromiseOutcome
  state : PushState
  probes : List AgentName
  creates : List AgentName
  listeners : List String
  deriving DecidableEq, Repr

/-- `create(title, options)` (Push.js lines 241-273). A non-string title
throws synchronously before any permission or agent work. Otherwise, when
permission is not yet granted, exactly one request is issued: on denial the
promise rejects with the fixed declined message and `_createCallback` never
runs; on grant (or with pre-existing permission) `_createCallback` runs
inside try/catch, a throw rejecting and the first resolve winning. -/
def create (env : Env) (titleIsString : Bool) (options : Options)
    (s : PushState) : CreateResult :=
  if titleIsString then
    if env.permissionHas then
      let cb := _createCallback env options s
      { thrownSync := none, permissionRequests := 0,
        outcome := some (effectiveOutcome cb), state := cb.state,
        probes := cb.probes, creates := cb.creates, listeners := cb.listeners }
    else if env.permissionGranted then
      let cb := _createCallback env options s
      { thrownSync := none, permissionRequests := 1,
        outcome := some (effectiveOutcome cb), state := cb.state,
        probes := cb.probes, creates := cb.creates, listeners := cb.listeners }
    else
      { thrownSync := none, permissionRequests := 1,
        outcome := some (.rejected permission_declined_message), state := s,
        probes := [], creates := [], listeners := [] }
  else
    { thrownSync := some title_error_message, permissionRequests := 0,
      outcome := none, state := s, probes := [], creates := [],
      listeners := [] }

/-- Whether the synchronous sweep of `_createCallback` leaves the local
`notification` non-null (read off the branch structure of lines 163-204):
true exactly for a desktop, WebKit or IE creation that returns a record -
the Firefox-mobile branch discards its result. -/
def syncProducesRecord (env : Env) : Bool :=
  if env.desktopSupported then env.desktopCreateResult.toBool
  else if env.webkitSupported then env.webkitCreateResult.toBool
  else if env.firefoxSupported then false
  else if env.msSupported then env.msCreateResult.toBool
  else false

/-- Whether some agent capable of closing (desktop, WebKit or IE - the three
probed by `_closeNotification`, lines 57-66) is supported. -/
def closeAgentAvailable (env : Env) : Bool :=
  env.desktopSupported || env.webkitSupported || env.msSupported

/-- A mutation of the registry as the dispatch core performs it: an
`_addNotification` or a `_removeNotification`. -/
inductive RegistryOp
  | add (n : NotificationRecord)
  | remove (id : Nat)
  deriving Repr

/-- The state change of a single registry operation. -/
def applyOp (s : PushState) : RegistryOp → PushState
  | .add n => (_addNotification s n).2
  | .remove id => (_removeNotification s id).2

/-- A sequence of registry operations applied in order. -/
def applyOps (s : PushState) (ops : List RegistryOp) : PushState :=
  ops.foldl applyOp s

/-- The registry invariant: every registered id is below `_currentId`, so
the next allocated id (`_currentId` itself) is fresh and no removed id can
ever reappear. -/
def registryInv (s : PushState) : Prop :=
  ∀ p ∈ s.notifications, p.1 < s.currentId

/-- Sample native record with tag `"a"`. -/
def recA : NotificationRecord := { tag := some "a", uid := 1 }

/-- A second record with the same tag `"a"`. -/
def recB : NotificationRecord := { tag := some "a", uid := 2 }

/-- Sample native record with tag `"c"`. -/
def recC : NotificationRecord := { tag := some "c", uid := 3 }

/-- A state with two registered notifications (distinct tags). -/
def stateTwo : PushState :=
  { currentId := 2, notifications := [(0, recA), (1, recC)] }

/-- A state with two registered notifications sharing the tag `"a"`. -/
def stateDupTag : PushState :=
  { currentId := 2, notifications := [(0, recA), (1, recB)] }

/-- Environment: only the desktop agent is supported, its creation
succeeds, permission is granted. -/
def envDesktop : Env :=
  { desktopSupported := true, chromeSupported := false,
    firefoxSupported := false, msSupported := false, webkitSupported := false,
    desktopCreateResult := .ok recA, webkitCreateResult := .error "unavailable",
    firefoxCreateResult := .error "unavailable",
    msCreateResult := .error "unavailable", permissionHas := true,
    permissionGranted := true, workerReady := false, displaySuccess := false,
    workerNotifications := [] }

/-- Environment with no supported agent at all. -/
def envNoAgents : Env := { envDesktop with desktopSupported := false }

/-- Environment: the desktop agent is supported but its creation throws, and
the Service-Worker agent is supported with both worker signals firing. -/
def envChromeFallback : Env :=
  { envDesktop with
    desktopCreateResult := (Except.error "mobile"),
    chromeSupported := true, workerReady := true, displaySuccess := true,
    workerNotifications := [recC] }

/-- Environment of the C3 scenario: desktop unsupported, Service-Worker
agent supported (worker signals ready to fire), everything else
unsupported. -/
def envChromeOnly : Env := { envChromeFallback with desktopSupported := false }

/-- Environment: only the Firefox-mobile agent is supported and its
creation returns a record. -/
def envFirefox : Env :=
  { envDesktop with
    desktopSupported := false, firefoxSupported := true,
    firefoxCreateResult := (Except.ok recA) }

/-- Environment: only the legacy WebKit agent is supported. -/
def envWebkit : Env :=
  { envDesktop with
    desktopSupported := false, webkitSupported := true,
    webkitCreateResult := (Except.ok recC) }

/-- Environment: only the IE agent is supported. -/
def envMs : Env :=
  { envDesktop with
    desktopSupported := false, msSupported := true,
    msCreateResult := (Except.ok recC) }

/-- Environment: permission not yet granted and the request will be
denied. -/
def envPermDenied : Env :=
  { envDesktop with permissionHas := false, permissionGranted := false }

/-- Environment: permission not yet granted, the request will be granted,
and no agent is supported. -/
def envPermGrantedNoAgents : Env :=
  { envNoAgents with permissionHas := false, permissionGranted := true }

/-!
## Helper lemmas

Shared facts about the registry operations; the claim theorems build on
them.
-/

theorem find_append_false {α : Type} (p : α → Bool) (l1 l2 : List α)
    (h : ∀ a ∈ l1, p a = false) : (l1 ++ l2).find? p = l2.find? p := by
  induction l1 with
  | nil => rfl
  | cons a l ih =>
    have ha : p a = false := h a (List.mem_cons_self a l)
    rw [List.cons_append, List.find?_cons_of_neg _ (by simp [ha])]
    exact ih (fun x hx => h x (List.mem_cons_of_mem a hx))

theorem any_false_find_none {α : Type} {p : α → Bool} {l : List α}
    (h : l.any p = false) : l.find? p = none := by
  apply List.find?_eq_none.mpr
  intro x hx hpx
  have hh := List.any_eq_true.mpr ⟨x, hx, hpx⟩
  rw [h] at hh
  simp at hh

theorem lookup_any {s : PushState} {id : Nat} {n : NotificationRecord}
    (h : lookupNotification s id = some n) :
    s.notifications.any (fun p => p.1 == id) = true := by
  unfold lookupNotification at h
  cases hf : s.notifications.find? (fun p => p.1 == id) with
  | none => rw [hf] at h; simp at h
  | some q =>
    have hq := List.find?_some hf
    exact List.any_eq_true.mpr ⟨q, List.mem_of_find?_eq_some hf, hq⟩

theorem filter_find_none (id : Nat) (l : List (Nat × NotificationRecord)) :
    (l.filter (fun p => p.1 != id)).find? (fun p => p.1 == id) = none := by
  apply List.find?_eq_none.mpr
  intro p hp
  have h2 := List.of_mem_filter hp
  simp only [bne_iff_ne, ne_eq] at h2
  simpa using h2

theorem lookup_remove_self (s : PushState) (id : Nat) :
    lookupNotification (_removeNotification s id).2 id = none := by
  unfold _removeNotification
  cases hany : s.notifications.any (fun p => p.1 == id) with
  | true => simp [lookupNotification, filter_find_none]
  | false =>
    simp only [Bool.false_eq_true, if_false]
    unfold lookupNotification
    rw [any_false_find_none hany]
    rfl

theorem remove_cons {s : PushState} {k : Nat} {n : NotificationRecord}
    {rest : List (Nat × NotificationRecord)}
    (hN : s.notifications = (k, n) :: rest)
    (hk : k ∉ rest.map (fun p => p.1)) :
    _removeNotification s k = (true, { s with notifications := rest }) := by
  have hany : s.notifications.any (fun p => p.1 == k) = true := by
    rw [hN]; simp
  have hfilter : s.notifications.filter (fun p => p.1 != k) = rest := by
    rw [hN, List.filter_cons]
    have h1 : ((k, n).1 != k) = false := by simp
    simp only [h1, Bool.false_eq_true, if_false]
    refine List.filter_eq_self.mpr (fun a ha => ?_)
    have h2 : a.1 ≠ k :=
      fun he => hk (he ▸ List.mem_map_of_mem (fun p => p.1) ha)
    simpa using h2
  unfold _removeNotification
  simp [hany, hfilter]

theorem close_absent {env : Env} {s : PushState} {id : Nat}
    (h : lookupNotification s id = none) :
    _closeNotification env s id = .ok (false, s) := by
  unfold _closeNotification
  rw [h]

theorem close_present {env : Env} {s : PushState} {id : Nat}
    {n : NotificationRecord} (h : lookupNotification s id = some n)
    (hcap : closeAgentAvailable env = true) :
    _closeNotification env s id = .ok (true, (_removeNotification s id).2) := by
  have hfst : (_removeNotification s id).1 = true := by
    unfold _removeNotification
    simp [lookup_any h]
  unfold _closeNotification
  rw [h]
  cases hd : env.desktopSupported with
  | true => simp [hfst]
  | false =>
    cases hw : env.webkitSupported with
    | true => simp [hd, hfst]
    | false =>
      cases hm : env.msSupported with
      | true => simp [hd, hw, hfst]
      | false =>
        unfold closeAgentAvailable at hcap
        rw [hd, hw, hm] at hcap
        simp at hcap

theorem close_present_noagent {env : Env} {s : PushState} {id : Nat}
    {n : NotificationRecord} (h : lookupNotification s id = some n)
    (hd : env.desktopSupported = false) (hw : env.webkitSupported = false)
    (hm : env.msSupported = false) :
    _closeNotification env s id
      = .error (close_error_message, (_removeNotification s id).2) := by
  unfold _closeNotification
  rw [h]
  simp [hd, hw, hm]

theorem clearLoop_ok (env : Env) (hcap : closeAgentAvailable env = true)
    (ks : List Nat) :
    ∀ s : PushState, s.notifications.map (fun p => p.1) = ks → ks.Nodup →
      clearLoop env ks true s = .ok (true, { s with notifications := [] }) := by
  induction ks with
  | nil =>
    intro s hmap _
    have h0 : s.notifications = [] := List.map_eq_nil_iff.mp hmap
    cases s with
    | mk c notif =>
      simp only at h0
      subst h0
      rfl
  | cons k ks ih =>
    intro s hmap hnodup
    cases hN : s.notifications with
    | nil => rw [hN] at hmap; simp at hmap
    | cons q rest =>
      obtain ⟨k2, n⟩ := q
      rw [hN] at hmap
      simp only [List.map_cons, List.cons.injEq] at hmap
      obtain ⟨hpk, hrest⟩ := hmap
      subst hpk
      have hk : k2 ∉ ks := (List.nodup_cons.mp hnodup).1
      have hknotin : k2 ∉ rest.map (fun p => p.1) := by rw [hrest]; exact hk
      have hlook : lookupNotification s k2 = some n := by
        unfold lookupNotification
        rw [hN, List.find?_cons_of_pos _ (by simp)]
        rfl
      have hclose := close_present hlook hcap
      rw [remove_cons hN hknotin] at hclose
      show clearLoop env (k2 :: ks) true s = _
      simp only [clearLoop, if_true]
      rw [hclose]
      have hrec := ih { s with notifications := rest } (by simpa using hrest)
        (List.nodup_cons.mp hnodup).2
      simpa using hrec

theorem clear_cons_error {env : Env} {s : PushState} {k : Nat}
    {n : NotificationRecord} {rest : List (Nat × NotificationRecord)}
    (hd : env.desktopSupported = false) (hw : env.webkitSupported = false)
    (hm : env.msSupported = false)
    (hN : s.notifications = (k, n) :: rest)
    (hknotin : k ∉ rest.map (fun p => p.1)) :
    clear env s = .error (close_error_message, { s with notifications := rest }) := by
  have hlook : lookupNotification s k = some n := by
    unfold lookupNotification
    rw [hN, List.find?_cons_of_pos _ (by simp)]
    rfl
  have hclose := close_present_noagent hlook hd hw hm
  rw [remove_cons hN hknotin] at hclose
  unfold clear
  rw [hN]
  simp only [List.map_cons, clearLoop, if_true]
  rw [hclose]

theorem remove_currentId (s : PushState) (id : Nat) :
    (_removeNotification s id).2.currentId = s.currentId := by
  unfold _removeNotification
  by_cases h : s.notifications.any (fun q => q.1 == id) = true <;> simp [h]

theorem remove_mem {s : PushState} {id : Nat} {p : Nat × NotificationRecord}
    (hp : p ∈ (_removeNotification s id).2.notifications) :
    p ∈ s.notifications := by
  unfold _removeNotification at hp
  by_cases h : s.notifications.any (fun q => q.1 == id) = true
  · simp only [h, if_true] at hp
    exact List.mem_of_mem_filter hp
  · simp only [h, if_false] at hp
    exact hp

theorem registryInv_applyOp {s : PushState} (op : RegistryOp)
    (h : registryInv s) : registryInv (applyOp s op) := by
  cases op with
  | add n =>
    intro p hp
    simp only [applyOp, _addNotification, List.mem_append,
      List.mem_singleton] at hp ⊢
    cases hp with
    | inl hmem => exact Nat.lt_succ_of_lt (h p hmem)
    | inr heq => rw [heq]; exact Nat.lt_succ_self _
  | remove id =>
    intro p hp
    show p.1 < (_removeNotification s id).2.currentId
    rw [remove_currentId]
    exact h p (remove_mem hp)

theorem registryInv_applyOps (ops : List RegistryOp) :
    ∀ s : PushState, registryInv s → registryInv (applyOps s ops) := by
  induction ops with
  | nil => intro s h; exact h
  | cons op ops ih =>
    intro s h
    exact ih (applyOp s op) (registryInv_applyOp op h)

theorem addMany_ids (rs : List NotificationRecord) :
    ∀ s : PushState,
      (applyOps s (rs.map RegistryOp.add)).notifications.map (fun p => p.1)
        = s.notifications.map (fun p => p.1)
            ++ List.range' s.currentId rs.length := by
  induction rs with
  | nil => intro s; simp [applyOps, List.range']
  | cons r rs ih =>
    intro s
    have h1 : applyOps s ((r :: rs).map RegistryOp.add)
        = applyOps (applyOp s (RegistryOp.add r)) (rs.map RegistryOp.add) := rfl
    rw [h1, ih]
    show List.map _ (s.notifications ++ [(s.currentId, r)])
        ++ List.range' (s.currentId + 1) rs.length = _
    rw [List.map_append]
    rw [show List.range' s.currentId ((r :: rs).length)
        = s.currentId :: List.range' (s.currentId + 1) rs.length from rfl]
    simp

theorem lookup_add_fresh (s : PushState) (n : NotificationRecord)
    (hinv : registryInv s) :
    lookupNotification (_addNotification s n).2 s.currentId = some n := by
  unfold lookupNotification _addNotification
  rw [find_append_false _ _ _ (fun a ha => by
    have h2 : a.1 ≠ s.currentId := Nat.ne_of_lt (hinv a ha)
    simpa using h2)]
  rw [List.find?_cons_of_pos _ (by simp)]
  rfl

theorem cb_desktop_ok {env : Env} (o : Options) (s : PushState)
    {n : NotificationRecord} (hd : env.desktopSupported = true)
    (hdr : env.desktopCreateResult = Except.ok n) :
    _createCallback env o s
      = registerSync o s n [AgentName.desktop] [AgentName.desktop] := by
  simp [_createCallback, hd, hdr]

theorem cb_chrome_success {env : Env} (o : Options) (s : PushState)
    {e : String} {last : NotificationRecord} (hd : env.desktopSupported = true)
    (hdr : env.desktopCreateResult = Except.error e)
    (hc : env.chromeSupported = true) (hr : env.workerReady = true)
    (hds : env.displaySuccess = true)
    (hwn : env.workerNotifications.getLast? = some last) :
    _createCallback env o s
      = { thrown := none,
          resolutions := [Resolution.empty, Resolution.wrapper s.currentId],
          state := (_addNotification s last).2,
          probes := [AgentName.desktop, AgentName.chrome],
          creates := [AgentName.desktop, AgentName.chrome],
          listeners := [], swCloseListener := true } := by
  simp [_createCallback, mobileChromeCreate, hd, hdr, hc, hr, hds, hwn]
  rfl

theorem cb_chrome_emptylist {env : Env} (o : Options) (s : PushState)
    {e : String} (hd : env.desktopSupported = true)
    (hdr : env.desktopCreateResult = Except.error e)
    (hc : env.chromeSupported = true) (hr : env.workerReady = true)
    (hds : env.displaySuccess = true)
    (hwn : env.workerNotifications.getLast? = none) :
    _createCallback env o s
      = { thrown := none,
          resolutions := [Resolution.empty, Resolution.wrapper s.currentId],
          state := { currentId := s.currentId + 1,
                     notifications := s.notifications },
          probes := [AgentName.desktop, AgentName.chrome],
          creates := [AgentName.desktop, AgentName.chrome],
          listeners := [], swCloseListener := true } := by
  simp [_createCallback, mobileChromeCreate, hd, hdr, hc, hr, hds, hwn]

theorem cb_chrome_nosignal {env : Env} (o : Options) (s : PushState)
    {e : String} (hd : env.desktopSupported = true)
    (hdr : env.desktopCreateResult = Except.error e)
    (hc : env.chromeSupported = true)
    (hsig : (env.workerReady && env.displaySuccess) = false) :
    _createCallback env o s
      = { thrown := none, resolutions := [Resolution.empty], state := s,
          probes := [AgentName.desktop, AgentName.chrome],
          creates := [AgentName.desktop, AgentName.chrome],
          listeners := [], swCloseListener := false } := by
  simp [_createCallback, mobileChromeCreate, hd, hdr, hc, hsig]

theorem cb_chrome_unsupported {env : Env} (o : Options) (s : PushState)
    {e : String} (hd : env.desktopSupported = true)
    (hdr : env.desktopCreateResult = Except.error e)
    (hc : env.chromeSupported = false) :
    _createCallback env o s
      = { thrown := none, resolutions := [Resolution.empty], state := s,
          probes := [AgentName.desktop, AgentName.chrome],
          creates := [AgentName.desktop],
          listeners := [], swCloseListener := false } := by
  simp [_createCallback, hd, hdr, hc]

theorem cb_webkit_ok {env : Env} (o : Options) (s : PushState)
    {n : NotificationRecord} (hd : env.desktopSupported = false)
    (hw : env.webkitSupported = true)
    (hwr : env.webkitCreateResult = Except.ok n) :
    _createCallback env o s
      = registerSync o s n [AgentName.desktop, AgentName.webkit]
          [AgentName.webkit] := by
  simp [_createCallback, hd, hw, hwr]

theorem cb_webkit_err {env : Env} (o : Options) (s : PushState)
    {e : String} (hd : env.desktopSupported = false)
    (hw : env.webkitSupported = true)
    (hwr : env.webkitCreateResult = Except.error e) :
    _createCallback env o s
      = { thrown := some e, resolutions := [], state := s,
          probes := [AgentName.desktop, AgentName.webkit],
          creates := [AgentName.webkit],
          listeners := [], swCloseListener := false } := by
  simp [_createCallback, hd, hw, hwr]

theorem cb_firefox_ok {env : Env} (o : Options) (s : PushState)
    {n : NotificationRecord} (hd : env.desktopSupported = false)
    (hw : env.webkitSupported = false) (hf : env.firefoxSupported = true)
    (hfr : env.firefoxCreateResult = Except.ok n) :
    _createCallback env o s
      = { thrown := none, resolutions := [Resolution.empty], state := s,
          probes := [AgentName.desktop, AgentName.webkit, AgentName.firefox],
          creates := [AgentName.firefox],
          listeners := [], swCloseListener := false } := by
  simp [_createCallback, hd, hw, hf, hfr]

theorem cb_firefox_err {env : Env} (o : Options) (s : PushState)
    {e : String} (hd : env.desktopSupported = false)
    (hw : env.webkitSupported = false) (hf : env.firefoxSupported = true)
    (hfr : env.firefoxCreateResult = Except.error e) :
    _createCallback env o s
      = { thrown := some e, resolutions := [], state := s,
          probes := [AgentName.desktop, AgentName.webkit, AgentName.firefox],
          creates := [AgentName.firefox],
          listeners := [], swCloseListener := false } := by
  simp [_createCallback, hd, hw, hf, hfr]

theorem cb_ms_ok {env : Env} (o : Options) (s : PushState)
    {n : NotificationRecord} (hd : env.desktopSupported = false)
    (hw : env.webkitSupported = false) (hf : env.firefoxSupported = false)
    (hm : env.msSupported = true)
    (hmr : env.msCreateResult = Except.ok n) :
    _createCallback env o s
      = registerSync o s n
          [AgentName.desktop, AgentName.webkit, AgentName.firefox, AgentName.ms]
          [AgentName.ms] := by
  simp [_createCallback, hd, hw, hf, hm, hmr]

theorem cb_ms_err {env : Env} (o : Options) (s : PushState)
    {e : String} (hd : env.desktopSupported = false)
    (hw : env.webkitSupported = false) (hf : env.firefoxSupported = false)
    (hm : env.msSupported = true)
    (hmr : env.msCreateResult = Except.error e) :
    _createCallback env o s
      = { thrown := some e, resolutions := [], state := s,
          probes := [AgentName.desktop, AgentName.webkit, AgentName.firefox,
            AgentName.ms],
          creates := [AgentName.ms],
          listeners := [], swCloseListener := false } := by
  simp [_createCallback, hd, hw, hf, hm, hmr]

theorem cb_unknown {env : Env} (o : Options) (s : PushState)
    (hd : env.desktopSupported = false) (hw : env.webkitSupported = false)
    (hf : env.firefoxSupported = false) (hm : env.msSupported = false) :
    _createCallback env o s
      = { thrown := some unknown_interface_message, resolutions := [],
          state := s,
          probes := [AgentName.desktop, AgentName.webkit, AgentName.firefox,
            AgentName.ms],
          creates := [], listeners := [], swCloseListener := false } := by
  simp [_createCallback, hd, hw, hf, hm]

/-!
## Claim theorems
-/

/-- C7: notification ids are allocated strictly increasing starting at 0 at
the single allocation point `_addNotification` (the allocated id is the
current counter and the counter then increments); removal never touches the
counter, so ids are never reused even after their entry is removed; every
state reachable by registry operations keeps all registered ids below the
counter; creating N notifications without closing any yields the N
distinct, ascending ids 0, ..., N-1; and regardless of which agent serves a
creation, any entry the dispatch adds is stored under the pre-call counter
value. -/
theorem ids_strictly_increasing_never_reused :
    (∀ (s : PushState) (n : NotificationRecord),
      (_addNotification s n).1 = s.currentId ∧
        (_addNotification s n).2.currentId = s.currentId + 1) ∧
    (∀ (s : PushState) (id : Nat),
      (_removeNotification s id).2.currentId = s.currentId) ∧
    (∀ ops : List RegistryOp, registryInv (applyOps initState ops)) ∧
    (∀ rs : List NotificationRecord,
      (applyOps initState (rs.map RegistryOp.add)).notifications.map
          (fun p => p.1) = List.range rs.length ∧
        List.Pairwise (· < ·) (List.range rs.length)) ∧
    (∀ (env : Env) (o : Options) (s : PushState),
      (_createCallback env o s).state.notifications = s.notifications ∨
        ∃ n, (_createCallback env o s).state.notifications
          = s.notifications ++ [(s.currentId, n)]) := by
  refine ⟨fun s n => ⟨rfl, rfl⟩, remove_currentId, ?_, ?_, ?_⟩
  · intro ops
    refine registryInv_applyOps ops initState ?_
    intro p hp
    simp [initState] at hp
  · intro rs
    constructor
    · rw [addMany_ids rs initState]
      simp [initState, List.range_eq_range']
    · exact List.pairwise_lt_range _
  · intro env o s
    cases hd : env.desktopSupported with
    | true =>
      cases hdr : env.desktopCreateResult with
      | ok n =>
        rw [cb_desktop_ok o s hd hdr]
        right
        exact ⟨n, rfl⟩
      | error e =>
        cases hc : env.chromeSupported with
        | false => rw [cb_chrome_unsupported o s hd hdr hc]; left; rfl
        | true =>
          cases hsig : (env.workerReady && env.displaySuccess) with
          | false => rw [cb_chrome_nosignal o s hd hdr hc hsig]; left; rfl
          | true =>
            have hsig2 := hsig
            rw [Bool.and_eq_true] at hsig2
            have hr : env.workerReady = true := hsig2.1
            have hds : env.displaySuccess = true := hsig2.2
            cases hwn : env.workerNotifications.getLast? with
            | some last =>
              rw [cb_chrome_success o s hd hdr hc hr hds hwn]
              right; exact ⟨last, rfl⟩
            | none =>
              rw [cb_chrome_emptylist o s hd hdr hc hr hds hwn]
              left; rfl
    | false =>
      cases hw : env.webkitSupported with
      | true =>
        cases hwr : env.webkitCreateResult with
        | ok n => rw [cb_webkit_ok o s hd hw hwr]; right; exact ⟨n, rfl⟩
        | error e => rw [cb_webkit_err o s hd hw hwr]; left; rfl
      | false =>
        cases hf : env.firefoxSupported with
        | true =>
          cases hfr : env.firefoxCreateResult with
          | ok n => rw [cb_firefox_ok o s hd hw hf hfr]; left; rfl
          | error e => rw [cb_firefox_err o s hd hw hf hfr]; left; rfl
        | false =>
          cases hm : env.msSupported with
          | true =>
            cases hmr : env.msCreateResult with
            | ok n => rw [cb_ms_ok o s hd hw hf hm hmr]; right; exact ⟨n, rfl⟩
            | error e => rw [cb_ms_err o s hd hw hf hm hmr]; left; rfl
          | false => rw [cb_unknown o s hd hw hf hm]; left; rfl

/-- Witness for C7: creating two notifications from the initial state yields
the ascending ids 0 and 1. -/
theorem ids_strictly_increasing_never_reused_witness :
    (applyOps initState ([recA, recC].map RegistryOp.add)).notifications.map
        (fun p => p.1) = List.range 2 :=
  (ids_strictly_increasing_never_reused.2.2.2.1 [recA, recC]).1

/-- C8: closing an id that is not present in the registry (already closed
or never existing) is a safe no-op: it returns `false`, never throws, and
leaves the registry unchanged; and after any closure that returns normally,
a second closure attempt on the same id returns `false` on the unchanged
state, so repeated closure is idempotent. -/
theorem close_absent_id_noop (env : Env) (s : PushState) (id : Nat) :
    (lookupNotification s id = none →
      _closeNotification env s id = .ok (false, s)) ∧
    (∀ (b : Bool) (s2 : PushState),
      _closeNotification env s id = Except.ok (b, s2) →
      _closeNotification env s2 id = .ok (false, s2)) := by
  constructor
  · exact fun h => close_absent h
  · intro b s2 hok
    by_cases hcap : closeAgentAvailable env = true
    · cases hl : lookupNotification s id with
      | none =>
        rw [close_absent hl] at hok
        simp only [Except.ok.injEq, Prod.mk.injEq] at hok
        obtain ⟨hb, hs⟩ := hok
        rw [← hs]
        exact close_absent hl
      | some n =>
        rw [close_present hl hcap] at hok
        simp only [Except.ok.injEq, Prod.mk.injEq] at hok
        obtain ⟨hb, hs⟩ := hok
        rw [← hs]
        exact close_absent (lookup_remove_self s id)
    · have h3 : (env.desktopSupported = false ∧ env.webkitSupported = false)
          ∧ env.msSupported = false := by
        unfold closeAgentAvailable at hcap
        simpa [Bool.or_eq_true, not_or, Bool.not_eq_true] using hcap
      obtain ⟨⟨hd, hw⟩, hm⟩ := h3
      cases hl : lookupNotification s id with
      | none =>
        rw [close_absent hl] at hok
        simp only [Except.ok.injEq, Prod.mk.injEq] at hok
        obtain ⟨hb, hs⟩ := hok
        rw [← hs]
        exact close_absent hl
      | some n =>
        rw [close_present_noagent hl hd hw hm] at hok
        simp at hok

/-- Witness for C8 at a concrete input: id 5 is not registered in the
initial state, and closing it is a no-op returning `false`. -/
theorem close_absent_id_noop_witness :
    lookupNotification initState 5 = none ∧
      _closeNotification envDesktop initState 5 = .ok (false, initState) :=
  ⟨rfl, (close_absent_id_noop envDesktop initState 5).1 rfl⟩

/-- C10: when a closure operation finds the id registered but none of the
desktop, WebKit or IE agents reports support, the registry entry is deleted
first and only then the unknown-interface error is thrown - the deletion is
not rolled back (the id is gone from the state the error carries); and
`clear()` propagates the same error after the first entry has been
removed. -/
theorem close_unknown_interface_removes_then_throws (env : Env)
    (s : PushState) (id k : Nat) (n m : NotificationRecord)
    (rest : List (Nat × NotificationRecord))
    (hd : env.desktopSupported = false) (hw : env.webkitSupported = false)
    (hm : env.msSupported = false) :
    (lookupNotification s id = some n →
      _closeNotification env s id
          = .error (close_error_message, (_removeNotification s id).2) ∧
        lookupNotification (_removeNotification s id).2 id = none) ∧
    (s.notifications = (k, m) :: rest → k ∉ rest.map (fun p => p.1) →
      clear env s
        = .error (close_error_message, { s with notifications := rest })) := by
  constructor
  · intro h
    exact ⟨close_present_noagent h hd hw hm, lookup_remove_self s id⟩
  · intro hN hknotin
    exact clear_cons_error hd hw hm hN hknotin

/-- Witness for C10: closing id 0 of a two-entry registry with no supported
close agent throws after removing the entry, and `clear()` propagates the
error with only that first entry removed. -/
theorem close_unknown_interface_removes_then_throws_witness :
    (_closeNotification envNoAgents stateTwo 0
        = .error (close_error_message, (_removeNotification stateTwo 0).2)) ∧
      clear envNoAgents stateTwo
        = .error (close_error_message,
            { stateTwo with notifications := [(1, recC)] }) :=
  ⟨((close_unknown_interface_removes_then_throws envNoAgents stateTwo 0 0
      recA recA [(1, recC)] rfl rfl rfl).1 rfl).1,
   (close_unknown_interface_removes_then_throws envNoAgents stateTwo 0 0
      recA recA [(1, recC)] rfl rfl rfl).2 rfl (by decide)⟩

/-- C9: `close(tag)` scans the registry in insertion order and affects at
most one registered notification even when several share the tag: with no
matching entry it returns the `undefined`-like false-equivalent `none` and
changes nothing; when matches exist and a close-capable agent is supported,
exactly the first matching record is closed and removed, and every other
entry - later tag-sharers included - is retained. -/
theorem close_tag_first_match_only (env : Env) (s : PushState)
    (tag : Option String) (pre post : List (Nat × NotificationRecord))
    (k : Nat) (n : NotificationRecord) :
    ((∀ p ∈ s.notifications, p.2.tag ≠ tag) →
      close env s tag = .ok (none, s)) ∧
    (closeAgentAvailable env = true →
      s.notifications = pre ++ (k, n) :: post →
      (∀ p ∈ pre, p.2.tag ≠ tag) → n.tag = tag →
      (s.notifications.map (fun p => p.1)).Nodup →
      close env s tag
        = .ok (some true, { s with notifications := pre ++ post })) := by
  constructor
  · intro h
    unfold close
    have hf : s.notifications.find? (fun p => p.2.tag == tag) = none := by
      apply List.find?_eq_none.mpr
      intro p hp
      simpa using h p hp
    rw [hf]
  · intro hcap hN hpre htag hnodup
    have hfind : s.notifications.find? (fun p => p.2.tag == tag)
        = some (k, n) := by
      rw [hN, find_append_false _ pre _ (fun a ha => by simpa using hpre a ha)]
      exact List.find?_cons_of_pos _ (by simp [htag])
    have hmap : s.notifications.map (fun p => p.1)
        = pre.map (fun p => p.1) ++ k :: post.map (fun p => p.1) := by
      rw [hN]; simp
    rw [hmap] at hnodup
    have hparts := List.nodup_append.mp hnodup
    have hkpre : k ∉ pre.map (fun p => p.1) :=
      fun hmem => hparts.2.2 hmem (List.mem_cons_self _ _)
    have hkpost : k ∉ post.map (fun p => p.1) :=
      (List.nodup_cons.mp hparts.2.1).1
    have hlook : lookupNotification s k = some n := by
      unfold lookupNotification
      rw [hN, find_append_false _ pre _ (fun a ha => by
        have h2 : a.1 ≠ k :=
          fun he => hkpre (he ▸ List.mem_map_of_mem (fun p => p.1) ha)
        simpa using h2)]
      rw [List.find?_cons_of_pos _ (by simp)]
      rfl
    have hrem : _removeNotification s k
        = (true, { s with notifications := pre ++ post }) := by
      have hany : s.notifications.any (fun p => p.1 == k) = true :=
        lookup_any hlook
      have hfp : pre.filter (fun p => p.1 != k) = pre :=
        List.filter_eq_self.mpr (fun a ha => by
          have h2 : a.1 ≠ k :=
            fun he => hkpre (he ▸ List.mem_map_of_mem (fun p => p.1) ha)
          simpa using h2)
      have hfq : post.filter (fun p => p.1 != k) = post :=
        List.filter_eq_self.mpr (fun a ha => by
          have h2 : a.1 ≠ k :=
            fun he => hkpost (he ▸ List.mem_map_of_mem (fun p => p.1) ha)
          simpa using h2)
      have hfil : s.notifications.filter (fun p => p.1 != k) = pre ++ post := by
        rw [hN, List.filter_append, List.filter_cons]
        have h1 : (((k, n) : Nat × NotificationRecord).1 != k) = false := by
          simp
        simp only [h1, Bool.false_eq_true, if_false]
        rw [hfp, hfq]
      unfold _removeNotification
      simp [hany, hfil]
    have hclose := close_present hlook hcap
    rw [hrem] at hclose
    have hstep : close env s tag
        = match _closeNotification env s k with
          | Except.ok r => Except.ok (some r.1, r.2)
          | Except.error e => Except.error e := by
      unfold close
      rw [hfind]
    rw [hstep, hclose]

/-- Witness for C9: in a registry whose two entries both carry tag "a",
closing by that tag removes only the first entry; closing by an unmatched
tag returns `none` and changes nothing. -/
theorem close_tag_first_match_only_witness :
    close envDesktop stateDupTag (some "a")
        = .ok (some true, { stateDupTag with notifications := [(1, recB)] }) ∧
      close envDesktop stateDupTag (some "zz") = .ok (none, stateDupTag) := by
  constructor
  · exact (close_tag_first_match_only envDesktop stateDupTag (some "a") []
      [(1, recB)] 0 recA).2 rfl rfl (by intro p hp; cases hp) rfl (by decide)
  · exact (close_tag_first_match_only envDesktop stateDupTag (some "zz") []
      [] 0 recA).1 (by decide)

/-- C2 counterexample: with two registered notifications and no
close-capable agent supported, `clear()` throws out of its loop instead of
returning `false`, and the second registered notification is neither closed
nor removed - the failing closure does not let the remaining closures
proceed, and no boolean result is produced, refuting the claim at this
input. -/
theorem clear_abort_counterexample :
    clear envNoAgents stateTwo
      = .error (close_error_message,
          { currentId := 2, notifications := [(1, recC)] }) := rfl

/-- C2 (amended): when a close-capable agent (desktop, WebKit or IE) is
supported, `clear()` closes every currently-registered notification and
returns `true` with the registry emptied - so it returns `true` iff every
individual closure succeeded; `clear()` never returns `false`: a closure
that fails because no close-capable agent is supported throws out of
`clear()` right after that entry has been removed, so the closures of the
remaining registered notifications do not proceed. -/
theorem clear_amended (env : Env) (s : PushState)
    (hnodup : (s.notifications.map (fun p => p.1)).Nodup) :
    (closeAgentAvailable env = true →
      clear env s = .ok (true, { s with notifications := [] })) ∧
    (∀ (b : Bool) (s2 : PushState),
      clear env s = Except.ok (b, s2) → b = true) ∧
    (closeAgentAvailable env = false →
      ∀ (k : Nat) (m : NotificationRecord)
        (rest : List (Nat × NotificationRecord)),
        s.notifications = (k, m) :: rest →
        clear env s
          = .error (close_error_message,
              { s with notifications := rest })) := by
  have hnoagent : closeAgentAvailable env = false →
      env.desktopSupported = false ∧ env.webkitSupported = false
        ∧ env.msSupported = false := by
    intro hcap
    unfold closeAgentAvailable at hcap
    cases hd : env.desktopSupported <;> cases hw : env.webkitSupported <;>
      cases hm : env.msSupported <;> rw [hd, hw, hm] at hcap <;>
        simp at hcap <;> exact ⟨rfl, rfl, rfl⟩
  refine ⟨?_, ?_, ?_⟩
  · intro hcap
    unfold clear
    exact clearLoop_ok env hcap _ s rfl hnodup
  · intro b s2 hok
    cases hcap : closeAgentAvailable env with
    | true =>
      have h1 : clear env s = .ok (true, { s with notifications := [] }) := by
        unfold clear
        exact clearLoop_ok env hcap _ s rfl hnodup
      rw [h1] at hok
      simp only [Except.ok.injEq, Prod.mk.injEq] at hok
      exact hok.1.symm
    | false =>
      obtain ⟨hd, hw, hm⟩ := hnoagent hcap
      cases hN : s.notifications with
      | nil =>
        unfold clear at hok
        rw [hN] at hok
        simp only [List.map_nil, clearLoop, Except.ok.injEq,
          Prod.mk.injEq] at hok
        exact hok.1.symm
      | cons q rest =>
        obtain ⟨k, m⟩ := q
        have hknotin : k ∉ rest.map (fun p => p.1) := by
          rw [hN, List.map_cons] at hnodup
          exact (List.nodup_cons.mp hnodup).1
        rw [clear_cons_error hd hw hm hN hknotin] at hok
        simp at hok
  · intro hcap k m rest hN
    obtain ⟨hd, hw, hm⟩ := hnoagent hcap
    have hknotin : k ∉ rest.map (fun p => p.1) := by
      rw [hN, List.map_cons] at hnodup
      exact (List.nodup_cons.mp hnodup).1
    exact clear_cons_error hd hw hm hN hknotin

/-- Witness for C2: with the desktop agent supported, clearing a two-entry
registry succeeds, returning `true` with the registry emptied. -/
theorem clear_amended_witness :
    clear envDesktop stateTwo
      = .ok (true, { stateTwo with notifications := [] }) :=
  (clear_amended envDesktop stateTwo (by decide)).1 rfl

/-- C5: agents are evaluated in a fixed priority order: the desktop agent is
probed first in every environment; when the desktop agent is supported but
its creation throws, the Service-Worker (chrome) agent is probed next and
its creation is invoked when it is supported; when the desktop agent is
unsupported the chain falls back in order to legacy WebKit, then
Firefox-mobile, then the IE agent; and when no agent is supported the
create future fails with the unknown-interface error. -/
theorem agent_priority_order (env : Env) (o : Options) (s : PushState) :
    ((_createCallback env o s).probes.head? = some AgentName.desktop) ∧
    (∀ e : String, env.desktopSupported = true →
      env.desktopCreateResult = Except.error e →
      (_createCallback env o s).probes
          = [AgentName.desktop, AgentName.chrome] ∧
        (env.chromeSupported = true →
          AgentName.chrome ∈ (_createCallback env o s).creates)) ∧
    (env.desktopSupported = false →
      (_createCallback env o s).probes.take 2
        = [AgentName.desktop, AgentName.webkit]) ∧
    (env.desktopSupported = false → env.webkitSupported = false →
      (_createCallback env o s).probes.take 3
        = [AgentName.desktop, AgentName.webkit, AgentName.firefox]) ∧
    (env.desktopSupported = false → env.webkitSupported = false →
      env.firefoxSupported = false →
      (_createCallback env o s).probes
        = [AgentName.desktop, AgentName.webkit, AgentName.firefox,
            AgentName.ms]) ∧
    (env.desktopSupported = false → env.chromeSupported = false →
      env.webkitSupported = false → env.firefoxSupported = false →
      env.msSupported = false → env.permissionHas = true →
      (create env true o s).outcome
        = some (PromiseOutcome.rejected unknown_interface_message)) := by
  refine ⟨?_, ?_, ?_, ?_, ?_, ?_⟩
  · cases hd : env.desktopSupported with
    | true =>
      cases hdr : env.desktopCreateResult with
      | ok n => rw [cb_desktop_ok o s hd hdr] <;> rfl
      | error e =>
        cases hc : env.chromeSupported with
        | false => rw [cb_chrome_unsupported o s hd hdr hc] <;> rfl
        | true =>
          cases hsig : (env.workerReady && env.displaySuccess) with
          | false => rw [cb_chrome_nosignal o s hd hdr hc hsig] <;> rfl
          | true =>
            have hsig2 := hsig
            rw [Bool.and_eq_true] at hsig2
            cases hwn : env.workerNotifications.getLast? with
            | some last =>
              rw [cb_chrome_success o s hd hdr hc hsig2.1 hsig2.2 hwn] <;> rfl
            | none =>
              rw [cb_chrome_emptylist o s hd hdr hc hsig2.1 hsig2.2 hwn] <;> rfl
    | false =>
      cases hw : env.webkitSupported with
      | true =>
        cases hwr : env.webkitCreateResult with
        | ok n => rw [cb_webkit_ok o s hd hw hwr] <;> rfl
        | error e => rw [cb_webkit_err o s hd hw hwr] <;> rfl
      | false =>
        cases hf : env.firefoxSupported with
        | true =>
          cases hfr : env.firefoxCreateResult with
          | ok n => rw [cb_firefox_ok o s hd hw hf hfr] <;> rfl
          | error e => rw [cb_firefox_err o s hd hw hf hfr] <;> rfl
        | false =>
          cases hm : env.msSupported with
          | true =>
            cases hmr : env.msCreateResult with
            | ok n => rw [cb_ms_ok o s hd hw hf hm hmr] <;> rfl
            | error e => rw [cb_ms_err o s hd hw hf hm hmr] <;> rfl
          | false => rw [cb_unknown o s hd hw hf hm] <;> rfl
  · intro e hd hdr
    cases hc : env.chromeSupported with
    | false =>
      rw [cb_chrome_unsupported o s hd hdr hc]
      exact ⟨rfl, fun h => Bool.noConfusion h⟩
    | true =>
      cases hsig : (env.workerReady && env.displaySuccess) with
      | false =>
        rw [cb_chrome_nosignal o s hd hdr hc hsig]
        exact ⟨rfl, fun _ => by simp⟩
      | true =>
        have hsig2 := hsig
        rw [Bool.and_eq_true] at hsig2
        cases hwn : env.workerNotifications.getLast? with
        | some last =>
          rw [cb_chrome_success o s hd hdr hc hsig2.1 hsig2.2 hwn]
          exact ⟨rfl, fun _ => by simp⟩
        | none =>
          rw [cb_chrome_emptylist o s hd hdr hc hsig2.1 hsig2.2 hwn]
          exact ⟨rfl, fun _ => by simp⟩
  · intro hd
    cases hw : env.webkitSupported with
    | true =>
      cases hwr : env.webkitCreateResult with
      | ok n => rw [cb_webkit_ok o s hd hw hwr] <;> rfl
      | error e => rw [cb_webkit_err o s hd hw hwr] <;> rfl
    | false =>
      cases hf : env.firefoxSupported with
      | true =>
        cases hfr : env.firefoxCreateResult with
        | ok n => rw [cb_firefox_ok o s hd hw hf hfr] <;> rfl
        | error e => rw [cb_firefox_err o s hd hw hf hfr] <;> rfl
      | false =>
        cases hm : env.msSupported with
        | true =>
          cases hmr : env.msCreateResult with
          | ok n => rw [cb_ms_ok o s hd hw hf hm hmr] <;> rfl
          | error e => rw [cb_ms_err o s hd hw hf hm hmr] <;> rfl
        | false => rw [cb_unknown o s hd hw hf hm] <;> rfl
  · intro hd hw
    cases hf : env.firefoxSupported with
    | true =>
      cases hfr : env.firefoxCreateResult with
      | ok n => rw [cb_firefox_ok o s hd hw hf hfr] <;> rfl
      | error e => rw [cb_firefox_err o s hd hw hf hfr] <;> rfl
    | false =>
      cases hm : env.msSupported with
      | true =>
        cases hmr : env.msCreateResult with
        | ok n => rw [cb_ms_ok o s hd hw hf hm hmr] <;> rfl
        | error e => rw [cb_ms_err o s hd hw hf hm hmr] <;> rfl
      | false => rw [cb_unknown o s hd hw hf hm] <;> rfl
  · intro hd hw hf
    cases hm : env.msSupported with
    | true =>
      cases hmr : env.msCreateResult with
      | ok n => rw [cb_ms_ok o s hd hw hf hm hmr] <;> rfl
      | error e => rw [cb_ms_err o s hd hw hf hm hmr] <;> rfl
    | false => rw [cb_unknown o s hd hw hf hm] <;> rfl
  · intro hd hc hw hf hm hp
    have hcb := cb_unknown o s hd hw hf hm
    simp [create, hp, hcb, effectiveOutcome]

/-- Witness for C5: with only WebKit supported the probe order starts
desktop then WebKit, and with nothing supported the create future rejects
with the unknown-interface error. -/
theorem agent_priority_order_witness :
    (_createCallback envWebkit noOptions initState).probes.take 2
        = [AgentName.desktop, AgentName.webkit] ∧
      (create envNoAgents true noOptions initState).outcome
        = some (PromiseOutcome.rejected unknown_interface_message) :=
  ⟨(agent_priority_order envWebkit noOptions initState).2.2.1 rfl,
   (agent_priority_order envNoAgents noOptions
      initState).2.2.2.2.2 rfl rfl rfl rfl rfl rfl⟩

/-- C6 counterexample: with permission not yet granted, a request that is
GRANTED, and no supported agent, exactly one permission request is issued
and the future nevertheless fails - with the unknown-interface error, not
the permission-declined one - although the request was not denied; this
refutes "the future fails if and only if the request is denied". -/
theorem permission_failure_counterexample :
    (create envPermGrantedNoAgents true noOptions initState).permissionRequests
        = 1 ∧
      envPermGrantedNoAgents.permissionGranted = true ∧
      (create envPermGrantedNoAgents true noOptions initState).outcome
        = some (PromiseOutcome.rejected unknown_interface_message) ∧
      unknown_interface_message ≠ permission_declined_message :=
  ⟨rfl, rfl, rfl, by decide⟩

/-- C6 (amended): for every create call with a valid string title made
while permission has not been granted, exactly one permission request is
issued; if the request is denied, the future fails with the
permission-declined error, no agent is probed or invoked and the registry
is untouched; if the request is granted, dispatch proceeds, and any failure
of the future then comes from agent dispatch, not from the permission
step. -/
theorem permission_request_amended (env : Env) (o : Options) (s : PushState)
    (hp : env.permissionHas = false) :
    (create env true o s).permissionRequests = 1 ∧
    (env.permissionGranted = false →
      (create env true o s).outcome
          = some (PromiseOutcome.rejected permission_declined_message) ∧
        (create env true o s).probes = [] ∧
        (create env true o s).creates = [] ∧
        (create env true o s).state = s) ∧
    (env.permissionGranted = true →
      (create env true o s).outcome
        = some (effectiveOutcome (_createCallback env o s))) := by
  cases hg : env.permissionGranted with
  | true =>
    refine ⟨?_, ?_, ?_⟩
    · simp [create, hp, hg]
    · intro h; exact Bool.noConfusion h
    · intro _; simp [create, hp, hg]
  | false =>
    refine ⟨?_, ?_, ?_⟩
    · simp [create, hp, hg]
    · intro _; refine ⟨?_, ?_, ?_, ?_⟩ <;> simp [create, hp, hg]
    · intro h; exact Bool.noConfusion h

/-- Witness for C6: with permission not granted and the request denied,
exactly one request is issued and the future rejects with the
permission-declined error. -/
theorem permission_request_amended_witness :
    (create envPermDenied true noOptions initState).outcome
        = some (PromiseOutcome.rejected permission_declined_message) ∧
      (create envPermDenied true noOptions initState).permissionRequests
        = 1 :=
  ⟨((permission_request_amended envPermDenied noOptions initState
      rfl).2.1 rfl).1,
   (permission_request_amended envPermDenied noOptions initState rfl).1⟩

/-- C1 counterexample: in an environment where the desktop creation throws
and the Service-Worker path succeeds, a notification record IS produced
(the final registry holds it, and `resolve` is called with its wrapper),
yet the effective resolution of the create future is the EMPTY handle -
refuting both "resolves with the wrapper handle when a notification record
was produced" and "resolves with an empty handle only when no notification
could be produced". -/
theorem create_empty_despite_record_counterexample :
    (create envChromeFallback true noOptions initState).outcome
        = some (PromiseOutcome.resolved Resolution.empty) ∧
      (create envChromeFallback true noOptions initState).state.notifications
        = [(0, recC)] ∧
      (_createCallback envChromeFallback noOptions initState).resolutions
        = [Resolution.empty, Resolution.wrapper 0] :=
  ⟨rfl, rfl, rfl⟩

/-- C1 (amended): with a string title and granted permission, the create
future has exactly one effective outcome, the first resolution: it is the
wrapper over the freshly allocated id iff the synchronous sweep produced a
record (successful desktop, WebKit or IE creation); it is the empty handle
iff the sweep produced no record and threw no terminal error - in
particular the Service-Worker path resolves empty even though it produces
a record later; rejection happens exactly when the sweep throws, so
resolved-but-empty and rejected remain distinct constructors; and every
non-throwing run calls resolve at least once. -/
theorem create_effective_resolution (env : Env) (o : Options) (s : PushState)
    (hp : env.permissionHas = true) :
    ((create env true o s).outcome
        = some (effectiveOutcome (_createCallback env o s))) ∧
    (syncProducesRecord env = true →
      effectiveOutcome (_createCallback env o s)
        = PromiseOutcome.resolved (Resolution.wrapper s.currentId)) ∧
    (syncProducesRecord env = false →
      (_createCallback env o s).thrown = none →
      effectiveOutcome (_createCallback env o s)
        = PromiseOutcome.resolved Resolution.empty) ∧
    (∀ e : String, (_createCallback env o s).thrown = some e →
      effectiveOutcome (_createCallback env o s)
        = PromiseOutcome.rejected e) ∧
    ((_createCallback env o s).thrown = none →
      (_createCallback env o s).resolutions ≠ []) := by
  refine ⟨by simp [create, hp], ?_, ?_, ?_, ?_⟩
  · intro hsync
    cases hd : env.desktopSupported with
    | true =>
      cases hdr : env.desktopCreateResult with
      | ok n => rw [cb_desktop_ok o s hd hdr] <;> rfl
      | error e => simp [syncProducesRecord, hd, hdr, Except.toBool] at hsync
    | false =>
      cases hw : env.webkitSupported with
      | true =>
        cases hwr : env.webkitCreateResult with
        | ok n => rw [cb_webkit_ok o s hd hw hwr] <;> rfl
        | error e =>
          simp [syncProducesRecord, hd, hw, hwr, Except.toBool] at hsync
      | false =>
        cases hf : env.firefoxSupported with
        | true => simp [syncProducesRecord, hd, hw, hf] at hsync
        | false =>
          cases hm : env.msSupported with
          | true =>
            cases hmr : env.msCreateResult with
            | ok n => rw [cb_ms_ok o s hd hw hf hm hmr] <;> rfl
            | error e =>
              simp [syncProducesRecord, hd, hw, hf, hm, hmr,
                Except.toBool] at hsync
          | false => simp [syncProducesRecord, hd, hw, hf, hm] at hsync
  · intro hsync hth
    cases hd : env.desktopSupported with
    | true =>
      cases hdr : env.desktopCreateResult with
      | ok n => simp [syncProducesRecord, hd, hdr, Except.toBool] at hsync
      | error e =>
        cases hc : env.chromeSupported with
        | false => rw [cb_chrome_unsupported o s hd hdr hc] <;> rfl
        | true =>
          cases hsig : (env.workerReady && env.displaySuccess) with
          | false => rw [cb_chrome_nosignal o s hd hdr hc hsig] <;> rfl
          | true =>
            have hsig2 := hsig
            rw [Bool.and_eq_true] at hsig2
            cases hwn : env.workerNotifications.getLast? with
            | some last =>
              rw [cb_chrome_success o s hd hdr hc hsig2.1 hsig2.2 hwn] <;> rfl
            | none =>
              rw [cb_chrome_emptylist o s hd hdr hc hsig2.1 hsig2.2 hwn] <;>
                rfl
    | false =>
      cases hw : env.webkitSupported with
      | true =>
        cases hwr : env.webkitCreateResult with
        | ok n => simp [syncProducesRecord, hd, hw, hwr, Except.toBool] at hsync
        | error e => rw [cb_webkit_err o s hd hw hwr] at hth; cases hth
      | false =>
        cases hf : env.firefoxSupported with
        | true =>
          cases hfr : env.firefoxCreateResult with
          | ok n => rw [cb_firefox_ok o s hd hw hf hfr] <;> rfl
          | error e => rw [cb_firefox_err o s hd hw hf hfr] at hth; cases hth
        | false =>
          cases hm : env.msSupported with
          | true =>
            cases hmr : env.msCreateResult with
            | ok n =>
              simp [syncProducesRecord, hd, hw, hf, hm, hmr,
                Except.toBool] at hsync
            | error e => rw [cb_ms_err o s hd hw hf hm hmr] at hth; cases hth
          | false => rw [cb_unknown o s hd hw hf hm] at hth; cases hth
  · intro e hth
    unfold effectiveOutcome
    rw [hth]
  · intro hth
    cases hd : env.desktopSupported with
    | true =>
      cases hdr : env.desktopCreateResult with
      | ok n => rw [cb_desktop_ok o s hd hdr]; simp [registerSync]
      | error e =>
        cases hc : env.chromeSupported with
        | false => rw [cb_chrome_unsupported o s hd hdr hc]; simp
        | true =>
          cases hsig : (env.workerReady && env.displaySuccess) with
          | false => rw [cb_chrome_nosignal o s hd hdr hc hsig]; simp
          | true =>
            have hsig2 := hsig
            rw [Bool.and_eq_true] at hsig2
            cases hwn : env.workerNotifications.getLast? with
            | some last =>
              rw [cb_chrome_success o s hd hdr hc hsig2.1 hsig2.2 hwn]; simp
            | none =>
              rw [cb_chrome_emptylist o s hd hdr hc hsig2.1 hsig2.2 hwn]; simp
    | false =>
      cases hw : env.webkitSupported with
      | true =>
        cases hwr : env.webkitCreateResult with
        | ok n => rw [cb_webkit_ok o s hd hw hwr]; simp [registerSync]
        | error e => rw [cb_webkit_err o s hd hw hwr] at hth; cases hth
      | false =>
        cases hf : env.firefoxSupported with
        | true =>
          cases hfr : env.firefoxCreateResult with
          | ok n => rw [cb_firefox_ok o s hd hw hf hfr]; simp
          | error e => rw [cb_firefox_err o s hd hw hf hfr] at hth; cases hth
        | false =>
          cases hm : env.msSupported with
          | true =>
            cases hmr : env.msCreateResult with
            | ok n => rw [cb_ms_ok o s hd hw hf hm hmr]; simp [registerSync]
            | error e => rw [cb_ms_err o s hd hw hf hm hmr] at hth; cases hth
          | false => rw [cb_unknown o s hd hw hf hm] at hth; cases hth

/-- Witness for C1: with the desktop agent succeeding, the effective
resolution is the wrapper over id 0. -/
theorem create_effective_resolution_witness :
    effectiveOutcome (_createCallback envDesktop noOptions initState)
      = PromiseOutcome.resolved (Resolution.wrapper 0) :=
  (create_effective_resolution envDesktop noOptions initState rfl).2.1 rfl

/-- C3 counterexample: in exactly the claimed environment - desktop agent
unsupported, Service-Worker agent supported, worker signals ready to fire -
`create("x", {})` never reaches the Service-Worker agent (it is probed only
from inside the desktop creation catch): no agent creation is invoked and
the future REJECTS with the unknown-interface error instead of resolving
after the worker signals. -/
theorem create_serviceworker_only_counterexample :
    envChromeOnly.desktopSupported = false ∧
      envChromeOnly.chromeSupported = true ∧
      (create envChromeOnly true noOptions initState).outcome
        = some (PromiseOutcome.rejected unknown_interface_message) ∧
      (create envChromeOnly true noOptions initState).creates = [] :=
  ⟨rfl, rfl, rfl, rfl⟩

/-- C3 (amended): the Service-Worker agent serves a creation only when the
desktop agent is supported but its creation throws. In that case, once the
worker-ready and display-success signals fire, the worker callback
registers the last entry of the worker notification list under the fresh
id and calls resolve with a wrapper whose `get()` returns exactly that
record - but that resolve comes second: the future has already resolved
with the empty handle during the synchronous sweep; and when the signals
do not fire, the future still resolves (empty) without waiting and the
state is unchanged. -/
theorem serviceworker_path_amended (env : Env) (o : Options) (s : PushState)
    (e : String) (last : NotificationRecord)
    (hd : env.desktopSupported = true)
    (hdr : env.desktopCreateResult = Except.error e)
    (hc : env.chromeSupported = true) (hinv : registryInv s) :
    (env.workerReady = true → env.displaySuccess = true →
      env.workerNotifications.getLast? = some last →
      (_createCallback env o s).resolutions
          = [Resolution.empty, Resolution.wrapper s.currentId] ∧
        wrapperGet (_createCallback env o s).state s.currentId = some last ∧
        (_createCallback env o s).state.notifications
          = s.notifications ++ [(s.currentId, last)] ∧
        effectiveOutcome (_createCallback env o s)
          = PromiseOutcome.resolved Resolution.empty) ∧
    ((env.workerReady && env.displaySuccess) = false →
      (_createCallback env o s).resolutions = [Resolution.empty] ∧
        (_createCallback env o s).state = s) := by
  constructor
  · intro hr hds hwn
    rw [cb_chrome_success o s hd hdr hc hr hds hwn]
    refine ⟨rfl, ?_, rfl, rfl⟩
    exact lookup_add_fresh s last hinv
  · intro hsig
    rw [cb_chrome_nosignal o s hd hdr hc hsig]
    exact ⟨rfl, rfl⟩

/-- Witness for C3 at a concrete input: the worker callback registers the
last simulated record and its wrapper sees it, while the effective
resolution stays empty. -/
theorem serviceworker_path_amended_witness :
    (_createCallback envChromeFallback noOptions initState).resolutions
        = [Resolution.empty, Resolution.wrapper 0] ∧
      wrapperGet (_createCallback envChromeFallback noOptions initState).state
          0 = some recC ∧
      effectiveOutcome (_createCallback envChromeFallback noOptions initState)
        = PromiseOutcome.resolved Resolution.empty :=
  have h := (serviceworker_path_amended envChromeFallback noOptions initState
    "mobile" recC rfl rfl rfl (fun p hp => by simp [initState] at hp)).1
    rfl rfl rfl
  ⟨h.1, h.2.1, h.2.2.2⟩

/-- C4 counterexample: a Firefox-mobile-served creation whose agent returns
a native record allocates no id, stores nothing in the registry, attaches
no listeners and leaves the future resolving with the empty handle - the
returned record is discarded (Push.js line 196) - refuting the claim for
the Firefox-mobile member of the synchronous-agent list. -/
theorem firefox_record_discarded_counterexample :
    envFirefox.firefoxCreateResult = Except.ok recA ∧
      (create envFirefox true noOptions initState).outcome
        = some (PromiseOutcome.resolved Resolution.empty) ∧
      (create envFirefox true noOptions initState).state = initState ∧
      (create envFirefox true noOptions initState).listeners = [] :=
  ⟨rfl, rfl, rfl, rfl⟩

/-- C4 (amended): for a creation served synchronously by the desktop,
legacy WebKit or IE agent returning a native record, the whole callback
result equals the registration block: a new id (the current counter) is
allocated and the record stored under it at the end of the registry, the
`show`/`error`/`click` listeners are attached exactly for the callbacks the
caller provided plus the unconditional `close`/`cancel` listeners, the
effective resolution is the wrapper over that id, and the wrapper sees the
stored record; the Firefox-mobile agent, although synchronous, has its
record discarded and its creation resolves empty. -/
theorem sync_registration_amended (env : Env) (o : Options) (s : PushState)
    (n : NotificationRecord) (p c : List AgentName) (hinv : registryInv s) :
    ((env.desktopSupported = true →
        env.desktopCreateResult = Except.ok n →
        _createCallback env o s
          = registerSync o s n [AgentName.desktop] [AgentName.desktop]) ∧
      (env.desktopSupported = false → env.webkitSupported = true →
        env.webkitCreateResult = Except.ok n →
        _createCallback env o s
          = registerSync o s n [AgentName.desktop, AgentName.webkit]
              [AgentName.webkit]) ∧
      (env.desktopSupported = false → env.webkitSupported = false →
        env.firefoxSupported = false → env.msSupported = true →
        env.msCreateResult = Except.ok n →
        _createCallback env o s
          = registerSync o s n
              [AgentName.desktop, AgentName.webkit, AgentName.firefox,
                AgentName.ms] [AgentName.ms]) ∧
      (env.desktopSupported = false → env.webkitSupported = false →
        env.firefoxSupported = true →
        env.firefoxCreateResult = Except.ok n →
        (_createCallback env o s).resolutions = [Resolution.empty] ∧
          (_createCallback env o s).state = s)) ∧
    ((registerSync o s n p c).state.notifications
        = s.notifications ++ [(s.currentId, n)] ∧
      (registerSync o s n p c).listeners = syncListeners o ∧
      effectiveOutcome (registerSync o s n p c)
        = PromiseOutcome.resolved (Resolution.wrapper s.currentId) ∧
      lookupNotification (registerSync o s n p c).state s.currentId
        = some n) := by
  refine ⟨⟨?_, ?_, ?_, ?_⟩, rfl, rfl, rfl, ?_⟩
  · exact fun hd hdr => cb_desktop_ok o s hd hdr
  · exact fun hd hw hwr => cb_webkit_ok o s hd hw hwr
  · exact fun hd hw hf hm hmr => cb_ms_ok o s hd hw hf hm hmr
  · intro hd hw hf hfr
    rw [cb_firefox_ok o s hd hw hf hfr]
    exact ⟨rfl, rfl⟩
  · exact lookup_add_fresh s n hinv

/-- Witness for C4: the desktop-served creation with all four lifecycle
callbacks provided registers record recA under id 0 and attaches the full
listener set. -/
theorem sync_registration_amended_witness :
    _createCallback envDesktop
        { tag := none, timeout := none, hasOnShow := true, hasOnError := true,
          hasOnClick := true, hasOnClose := true } initState
      = registerSync
          { tag := none, timeout := none, hasOnShow := true, hasOnError := true,
            hasOnClick := true, hasOnClose := true } initState recA
          [AgentName.desktop] [AgentName.desktop] ∧
    lookupNotification
        (registerSync noOptions initState recA [AgentName.desktop]
          [AgentName.desktop]).state 0 = some recA :=
  ⟨((sync_registration_amended envDesktop
      { tag := none, timeout := none, hasOnShow := true, hasOnError := true,
        hasOnClick := true, hasOnClose := true } initState recA
      [AgentName.desktop] [AgentName.desktop]
      (fun q hq => by simp [initState] at hq)).1).1 rfl rfl,
   ((sync_registration_amended envDesktop noOptions initState recA
      [AgentName.desktop] [AgentName.desktop]
      (fun q hq => by simp [initState] at hq)).2).2.2.2⟩

end Push
